/-
Verification of the deployment-orchestration core of this repository
(src/rust/agent-container-orchestrator/src/lib.rs).

The file shallowly embeds the data model (`ContainerTemplate`, `PortMapping`,
`VolumeMapping`, `ResourceLimits`, `ContainerInfo`, `DeploymentResult`) and the
operations `deploy_template`, `build_image`, `create_container`,
`get_container_info` and `remove_container` of `FastContainerOrchestrator`.

Modelling conventions:
- The Docker engine (bollard) is an external collaborator (spec section 6); it is
  modelled as a structure of response functions (`Engine`).  The per-deploy
  engine responses (build event stream, create / start / inspect results) are
  the fields of that structure; `deploy_template`'s engine interactions are
  additionally recorded in an explicit call trace so that "no engine call is
  attempted" is statable.
- `HashMap` state (template catalog, deployment registry, the port-binding map
  of the host configuration) is modelled as an association list with
  insert-replaces-key semantics (`insertA`), which preserves key uniqueness
  exactly as `HashMap::insert` does.
- Rust `u64`/`u16` values are modelled as `Nat`; where the source performs
  `u64` arithmetic followed by an `as i64` cast (the resource-limit
  translation), the wrap at `2 ^ 64` and the signed reinterpretation are
  modelled explicitly (`mbToBytesU64`, `i64OfU64`).
- `Uuid::new_v4().to_string()` is modelled by formatting 16 random bytes
  (drawn from an abstract `Nat` seed) in the canonical hyphenated lowercase-hex
  layout, with the version / variant bits forced as the v4 generator does;
  the source's byte slice `[..8]` is the 8-character prefix (all characters
  are ASCII).
- Wall-clock elapsed time is an abstract parameter (`elapsedMs`).
-/
import Mathlib

namespace Orchestrator

/-! ## Association-list model of `HashMap String α` -/

/-- `HashMap String α` modelled as an association list whose keys stay unique:
`insertA` removes any previous entry for the key, as `HashMap::insert` does. -/
abbrev AList (α : Type) : Type := List (String × α)

def lookupA {α : Type} (m : AList α) (k : String) : Option α :=
  (m.find? (fun kv => kv.1 == k)).map (fun kv => kv.2)

def eraseA {α : Type} (m : AList α) (k : String) : AList α :=
  m.filter (fun kv => kv.1 != k)

def insertA {α : Type} (m : AList α) (k : String) (v : α) : AList α :=
  (k, v) :: eraseA m k

/-- Number of entries stored under key `k`. -/
def countKey {α : Type} (m : AList α) (k : String) : Nat :=
  (m.filter (fun kv => kv.1 == k)).length

/-! ## Data model (the `struct`s of lib.rs) -/

structure PortMapping where
  host_port : Nat
  container_port : Nat
  protocol : String
deriving DecidableEq

structure VolumeMapping where
  host_path : String
  container_path : String
  read_only : Bool
deriving DecidableEq

structure ResourceLimits where
  memory_mb : Option Nat
  cpu_shares : Option Nat
  swap_mb : Option Nat
deriving DecidableEq

structure ContainerTemplate where
  id : String
  name : String
  description : String
  dockerfile : String
  docker_compose : Option String
  environment_vars : AList String
  ports : List PortMapping
  volumes : List VolumeMapping
  tools : List String
  resource_limits : ResourceLimits
deriving DecidableEq

structure ResourceUsage where
  cpu_percent : Float
  memory_mb : Nat
  memory_percent : Float
  network_rx_bytes : Nat
  network_tx_bytes : Nat

structure ContainerInfo where
  id : String
  name : String
  image : String
  status : String
  state : String
  created : String
  ports : List String
  resource_usage : Option ResourceUsage

structure DeploymentResult where
  success : Bool
  container_id : Option String
  container_name : String
  image_id : Option String
  ports : List String
  message : String
  build_logs : List String
  deployment_time_ms : Nat

/-- The error kinds the orchestrator surfaces.  `anyhow` errors are untyped
strings in the source; the constructors separate the messages the core itself
formats (`templateNotFound`, `buildError`, `buildStreamError`) from engine
errors propagated unchanged by the `?` operator (`engine`). -/
inductive OrchError where
  | templateNotFound (templateId : String)
  | buildError (message : String)
  | buildStreamError (message : String)
  | engine (message : String)
deriving DecidableEq

def isOkE {ε α : Type} : Except ε α → Bool
  | .ok _ => true
  | .error _ => false

/-! ## Engine model (bollard, an external collaborator) -/

/-- One `BuildInfo` item of the engine's build event stream: an optional log
line and an optional error terminator. -/
structure BuildInfoM where
  stream : Option String
  error : Option String
deriving DecidableEq

/-- One element of the streaming build response: either a `BuildInfo` event or
a transport error of the stream itself. -/
inductive BuildEvent where
  | info (i : BuildInfoM)
  | streamErr (message : String)
deriving DecidableEq

/-- `bollard::models::PortBinding`. -/
structure PortBindingM where
  host_ip : Option String
  host_port : Option String
deriving DecidableEq

/-- `HostConfig` as populated by `create_container` (the fields the source
sets; the remaining bollard fields are defaulted and never touched). -/
structure HostConfigM where
  port_bindings : Option (AList (Option (List PortBindingM)))
  binds : Option (List String)
  memory : Option Int
  cpu_shares : Option Int
  memory_swap : Option Int
deriving DecidableEq

/-- `bollard::container::Config` as populated by `create_container`. -/
structure ContainerConfigM where
  image : Option String
  env : Option (List String)
  host_config : Option HostConfigM
deriving DecidableEq

/-- The engine's container state, as read by `inspect_container`
(`state.status`, an optional enum rendered to a string by the source). -/
structure ContainerStateM where
  status : Option String

/-- The `config` part of the inspect response (`config.image`). -/
structure InspectConfigM where
  image : Option String

/-- The `network_settings.ports` part of the inspect response. -/
structure NetworkSettingsM where
  ports : Option (AList (Option (List PortBindingM)))

/-- The engine's `inspect_container` response, restricted to the fields
`get_container_info` reads. -/
structure InspectResponse where
  name : Option String
  config : Option InspectConfigM
  state : Option ContainerStateM
  created : Option String
  network_settings : Option NetworkSettingsM

/-- Modelled from the spec: the container engine is an external collaborator
(spec section 6).  Each field is the engine's response to the corresponding
call of one orchestrator operation; `containers` is the engine's own container
table (name, running flag), which decides stop / remove semantics. -/
structure Engine where
  buildStream : List BuildEvent
  create : ContainerConfigM → String → Except String String
  start : String → Except String Unit
  inspect : String → Except String InspectResponse
  containers : AList Bool

/-- Modelled from the spec: engine-side semantics of
`Docker::remove_container` (spec sections 4.3, 6, 7): removing an unknown name
fails with a not-found error (`ContainerNotFound` in the spec's error list),
and removing a running container without `force` is rejected. -/
def engineRemoveContainer (eng : Engine) (name : String) (force : Bool) : Except String Unit :=
  match lookupA eng.containers name with
  | none => .error ("No such container: " ++ name)
  | some running =>
    if running && !force then .error ("cannot remove a running container: " ++ name)
    else .ok ()

/-! ## Orchestrator state -/

/-- The two shared maps of `FastContainerOrchestrator`: the template catalog
and the deployment registry. -/
structure OrchState where
  templates : AList ContainerTemplate
  deployments : AList ContainerInfo

/-- Marker trace of the engine calls `deploy_template` performs. -/
inductive EngineCall where
  | build
  | create
  | start
  | inspect
deriving DecidableEq

/-! ## build_image -/

structure BuildResult where
  logs : List String
deriving DecidableEq

/-- Outcome of `build_image` together with the temp build-context directory's
fate (`tempDirReleased`), which the source only guarantees on one path. -/
structure BuildOutcome where
  result : Except OrchError BuildResult
  tempDirReleased : Bool

/-- Rust's `str::trim`: the string with leading and trailing whitespace
removed, computed over the character list. -/
def trimS (s : String) : String :=
  String.mk (((s.data.dropWhile Char.isWhitespace).reverse.dropWhile
    Char.isWhitespace).reverse)

/-- The event-stream loop of `build_image`: for each `Ok` event the log line
(if any) is trimmed and appended first, then the error terminator (if any)
aborts with `"Build error: {error}"`; a transport error aborts with
`"Build stream error: {e}"`; exhausting the stream succeeds with the
accumulated logs.  Note the collected logs are dropped on both error returns,
exactly as in the source. -/
def processBuildStream : List BuildEvent → List String → Except OrchError (List String)
  | [], logs => .ok logs
  | BuildEvent.info i :: rest, logs =>
    let logs' := match i.stream with
      | some s => logs ++ [trimS s]
      | none => logs
    match i.error with
    | some e => .error (.buildError ("Build error: " ++ e))
    | none => processBuildStream rest logs'
  | BuildEvent.streamErr e :: _, _ => .error (.buildStreamError ("Build stream error: " ++ e))

/-- `build_image`: materializes the build context (temp dir, Dockerfile, tar
archive — local filesystem effects with no further observable outcome here),
drives the engine's streaming build, and removes the temp directory.  The
`fs::remove_dir_all(&build_dir)` call sits after the stream loop, so it is
reached only when the loop falls through successfully; the early `return Err`
paths inside the loop skip it, hence `tempDirReleased := false` there. -/
def buildImage (eng : Engine) (_template : ContainerTemplate) (_imageTag : String) : BuildOutcome :=
  match processBuildStream eng.buildStream [] with
  | .ok logs => { result := .ok { logs := logs }, tempDirReleased := true }
  | .error e => { result := .error e, tempDirReleased := false }

/-! ## Spec-side restatement of the build-stream contract -/

/-- Follows the spec's words (amended): the first error terminator of the
stream (a `BuildInfo` error or a transport error), rendered with the same
message prefixes the source formats. -/
def firstTerminator : List BuildEvent → Option OrchError
  | [] => none
  | BuildEvent.info i :: rest =>
    match i.error with
    | some e => some (.buildError ("Build error: " ++ e))
    | none => firstTerminator rest
  | BuildEvent.streamErr e :: _ => some (.buildStreamError ("Build stream error: " ++ e))

/-- Follows the spec's words: the trimmed log lines collected from the stream
up to and including the first terminating event (the line of the terminating
event itself is pushed before the error is checked). -/
def collectedLogsSpec : List BuildEvent → List String
  | [] => []
  | BuildEvent.info i :: rest =>
    (match i.stream with | some s => [trimS s] | none => []) ++
    (match i.error with | some _ => [] | none => collectedLogsSpec rest)
  | BuildEvent.streamErr _ :: _ => []

/-- Follows the spec's words (amended claim C4): the first error terminator
aborts the build, carrying only the engine's error message; completion without
a terminator succeeds with all collected log lines. -/
def buildStreamSpec (evs : List BuildEvent) : Except OrchError (List String) :=
  match firstTerminator evs with
  | some err => .error err
  | none => .ok (collectedLogsSpec evs)

/-! ## create_container -/

/-- Key of the port-binding map: `"{container_port}/{protocol}"`. -/
def portKey (p : PortMapping) : String :=
  toString p.container_port ++ "/" ++ p.protocol

/-- The single host-side binding of one `PortMapping`:
address `0.0.0.0`, the mapping's host port. -/
def portBindingOf (p : PortMapping) : PortBindingM :=
  { host_ip := some "0.0.0.0", host_port := some (toString p.host_port) }

/-- The port-binding `HashMap` built by `create_container`'s first loop. -/
def portBindingsOf (t : ContainerTemplate) : AList (Option (List PortBindingM)) :=
  t.ports.foldl (fun m p => insertA m (portKey p) (some [portBindingOf p])) []

/-- One bind-mount spec of `create_container`'s volume loop:
`"{host}:{container}"`, with `":ro"` when `read_only`. -/
def volumeBindSpec (v : VolumeMapping) : String :=
  if v.read_only then v.host_path ++ ":" ++ v.container_path ++ ":ro"
  else v.host_path ++ ":" ++ v.container_path

def bindsOf (t : ContainerTemplate) : List String :=
  t.volumes.map volumeBindSpec

/-- Environment serialization: `"KEY=VALUE"` per entry. -/
def envOf (t : ContainerTemplate) : List String :=
  t.environment_vars.map (fun kv => kv.1 ++ "=" ++ kv.2)

/-- Wrap of unsigned 64-bit arithmetic. -/
def U64 : Nat := 2 ^ 64

/-- `(mb * 1024 * 1024)` in `u64` arithmetic (left-associated, each step
wrapping at `2 ^ 64`). -/
def mbToBytesU64 (mb : Nat) : Nat :=
  mb * 1024 % U64 * 1024 % U64

/-- Rust's `as i64` cast of a `u64` value: reinterpretation of the bit
pattern, so values at or above `2 ^ 63` come out negative. -/
def i64OfU64 (n : Nat) : Int :=
  if n < 2 ^ 63 then (n : Int) else (n : Int) - (2 ^ 64 : Int)

/-- The `Config` (with `HostConfig`) that `create_container` hands to the
engine: image, serialized env, port bindings, volume binds, and the
resource-limit translation `memory_mb.map(|mb| (mb * 1024 * 1024) as i64)`,
`cpu_shares.map(|s| s as i64)`, `swap_mb.map(|mb| (mb * 1024 * 1024) as i64)`;
absent (`None`) fields stay `None`. -/
def containerConfig (t : ContainerTemplate) (image : String) : ContainerConfigM :=
  { image := some image
    env := some (envOf t)
    host_config := some
      { port_bindings := some (portBindingsOf t)
        binds := some (bindsOf t)
        memory := t.resource_limits.memory_mb.map (fun mb => i64OfU64 (mbToBytesU64 mb))
        cpu_shares := t.resource_limits.cpu_shares.map (fun s => i64OfU64 s)
        memory_swap := t.resource_limits.swap_mb.map (fun mb => i64OfU64 (mbToBytesU64 mb)) } }

/-- `create_container`: builds the config and issues the engine create call
(name goes into `CreateContainerOptions`), returning the engine's container
id. -/
def createContainer (eng : Engine) (t : ContainerTemplate) (name image : String) :
    Except String String :=
  eng.create (containerConfig t image) name

/-! ## get_container_info -/

/-- The resolved `host_ip:host_port` strings extracted from the inspect
response's `network_settings.ports` (first binding per key; missing pieces
default to `"0.0.0.0"` and `"?"`). -/
def inspectPorts (c : InspectResponse) : List String :=
  match c.network_settings with
  | some ns =>
    match ns.ports with
    | some pbs =>
      pbs.filterMap (fun kv =>
        kv.2.bind (fun ports =>
          ports.head?.map (fun p =>
            (p.host_ip.getD "0.0.0.0") ++ ":" ++ (p.host_port.getD "?"))))
    | none => []
  | none => []

/-- The pure part of `get_container_info`: assembling a `ContainerInfo` from
the inspect response.  `status` and `state` are both read from
`container.state.status` (defaulting to the empty string); the name is
stripped of leading slashes; `resource_usage` is never populated. -/
def buildContainerInfo (containerId : String) (c : InspectResponse) : ContainerInfo :=
  { id := containerId
    name := String.mk ((c.name.getD "").data.dropWhile (fun ch => ch == '/'))
    image := (c.config.bind (fun cfg => cfg.image)).getD ""
    status := (c.state.bind (fun s => s.status)).getD ""
    state := (c.state.bind (fun s => s.status)).getD ""
    created := c.created.getD ""
    ports := inspectPorts c
    resource_usage := none }

/-- `get_container_info`: engine inspect call plus the pure assembly. -/
def getContainerInfo (eng : Engine) (containerId : String) :
    Except String ContainerInfo :=
  (eng.inspect containerId).map (buildContainerInfo containerId)

/-! ## Deployment-name synthesis (`Uuid::new_v4().to_string()[..8]`) -/

def hexChars : List Char :=
  "0123456789abcdef".data

def hexDigit (n : Nat) : Char :=
  hexChars.getD (n % 16) '0'

/-- Lowercase-hex test on a character, by ASCII code. -/
def isLowerHexDigit (c : Char) : Bool :=
  (48 ≤ c.toNat && c.toNat ≤ 57) || (97 ≤ c.toNat && c.toNat ≤ 102)

/-- The i-th of the 16 random bytes drawn by `Uuid::new_v4`, taken from the
abstract random seed. -/
def uuidByte (rand i : Nat) : Nat :=
  rand / 256 ^ i % 256

/-- The canonical 36-character hyphenated lowercase-hex rendering of the v4
UUID built from the seed's 16 bytes.  The v4 generator forces the version
nibble of byte 6 to `4` and the two top bits of byte 8 to `10`; bytes 0–3
(the first 8 output characters) are raw random bytes. -/
def uuidV4Chars (rand : Nat) : List Char :=
  [hexDigit (uuidByte rand 0 / 16), hexDigit (uuidByte rand 0),
   hexDigit (uuidByte rand 1 / 16), hexDigit (uuidByte rand 1),
   hexDigit (uuidByte rand 2 / 16), hexDigit (uuidByte rand 2),
   hexDigit (uuidByte rand 3 / 16), hexDigit (uuidByte rand 3), '-',
   hexDigit (uuidByte rand 4 / 16), hexDigit (uuidByte rand 4),
   hexDigit (uuidByte rand 5 / 16), hexDigit (uuidByte rand 5), '-',
   hexDigit ((uuidByte rand 6 % 16 + 64) / 16), hexDigit (uuidByte rand 6 % 16 + 64),
   hexDigit (uuidByte rand 7 / 16), hexDigit (uuidByte rand 7), '-',
   hexDigit ((uuidByte rand 8 % 64 + 128) / 16), hexDigit (uuidByte rand 8 % 64 + 128),
   hexDigit (uuidByte rand 9 / 16), hexDigit (uuidByte rand 9), '-',
   hexDigit (uuidByte rand 10 / 16), hexDigit (uuidByte rand 10),
   hexDigit (uuidByte rand 11 / 16), hexDigit (uuidByte rand 11),
   hexDigit (uuidByte rand 12 / 16), hexDigit (uuidByte rand 12),
   hexDigit (uuidByte rand 13 / 16), hexDigit (uuidByte rand 13),
   hexDigit (uuidByte rand 14 / 16), hexDigit (uuidByte rand 14),
   hexDigit (uuidByte rand 15 / 16), hexDigit (uuidByte rand 15)]

/-- `&Uuid::new_v4().to_string()[..8]`: the 8-character prefix (ASCII, so the
byte slice is the character prefix). -/
def uuidFirst8 (rand : Nat) : String :=
  String.mk ((uuidV4Chars rand).take 8)

/-- `format!("{}-{}", template_id, ...)` with the uuid prefix. -/
def synthesizeName (templateId : String) (rand : Nat) : String :=
  templateId ++ "-" ++ uuidFirst8 rand

/-! ## deploy_template and remove_container -/

structure DeployOutcome where
  result : Except OrchError DeploymentResult
  state : OrchState
  calls : List EngineCall

/-- `deploy_template`: template lookup (miss aborts with no engine call),
name synthesis, `"agent-{id}"` image tag, then build → create → start →
inspect; only after all four succeed is the `ContainerInfo` inserted into the
deployment registry, and the aggregated `DeploymentResult` returned.  Every
failure propagates via `?` and leaves the registry untouched. -/
def deployTemplate (eng : Engine) (st : OrchState) (templateId : String)
    (containerName : Option String) (rand elapsedMs : Nat) : DeployOutcome :=
  match lookupA st.templates templateId with
  | none => { result := .error (.templateNotFound templateId), state := st, calls := [] }
  | some template =>
    let deploymentName := containerName.getD (synthesizeName templateId rand)
    let imageTag := "agent-" ++ templateId
    match (buildImage eng template imageTag).result with
    | .error e => { result := .error e, state := st, calls := [.build] }
    | .ok buildResult =>
      match createContainer eng template deploymentName imageTag with
      | .error e =>
        { result := .error (.engine e), state := st, calls := [.build, .create] }
      | .ok containerId =>
        match eng.start containerId with
        | .error e =>
          { result := .error (.engine e), state := st, calls := [.build, .create, .start] }
        | .ok _ =>
          match getContainerInfo eng containerId with
          | .error e =>
            { result := .error (.engine e), state := st
              calls := [.build, .create, .start, .inspect] }
          | .ok containerInfo =>
            { result := .ok
                { success := true
                  container_id := some containerId
                  container_name := deploymentName
                  image_id := some imageTag
                  ports := containerInfo.ports
                  message := "Container deployed successfully"
                  build_logs := buildResult.logs
                  deployment_time_ms := elapsedMs }
              state := { st with
                deployments := insertA st.deployments deploymentName containerInfo }
              calls := [.build, .create, .start, .inspect] }

/-- `remove_container`: engine removal (with `force` and `v: true`), then —
only when the engine call succeeded — eviction of the registry entry.  An
engine failure propagates via `?` before the eviction is reached. -/
def removeContainer (eng : Engine) (st : OrchState) (containerName : String)
    (force : Bool) : Except OrchError Unit × OrchState :=
  match engineRemoveContainer eng containerName force with
  | .error e => (.error (.engine e), st)
  | .ok _ => (.ok (), { st with deployments := eraseA st.deployments containerName })

/-! ## Concrete data for witnesses and counterexamples -/

/-- The claim-relevant fields (id, env, ports, volumes, tools, resource
limits) of the built-in `dev-environment` template of
`create_dev_environment_template`; the multi-line Dockerfile recipe text is
opaque catalog data (spec section 1) and is abbreviated to its first line. -/
def devTemplate : ContainerTemplate :=
  { id := "dev-environment"
    name := "Full-Stack Development Environment"
    description := "Complete development environment with multiple language support"
    dockerfile := "FROM ubuntu:22.04"
    docker_compose := none
    environment_vars := [("NODE_ENV", "development"), ("PYTHONPATH", "/workspace")]
    ports :=
      [{ host_port := 3000, container_port := 3000, protocol := "tcp" },
       { host_port := 8000, container_port := 8000, protocol := "tcp" },
       { host_port := 5000, container_port := 5000, protocol := "tcp" },
       { host_port := 8080, container_port := 8080, protocol := "tcp" }]
    volumes :=
      [{ host_path := "./workspace", container_path := "/workspace", read_only := false }]
    tools := ["nodejs", "python3", "git", "vscode-server", "docker"]
    resource_limits := { memory_mb := some 2048, cpu_shares := some 1024, swap_mb := some 1024 } }

/-- A template whose two port mappings share the key `80/tcp`. -/
def dupPortTemplate : ContainerTemplate :=
  { id := "dup-port"
    name := "duplicate port keys"
    description := ""
    dockerfile := "FROM scratch"
    docker_compose := none
    environment_vars := []
    ports :=
      [{ host_port := 1000, container_port := 80, protocol := "tcp" },
       { host_port := 2000, container_port := 80, protocol := "tcp" }]
    volumes := []
    tools := []
    resource_limits := { memory_mb := none, cpu_shares := none, swap_mb := none } }

/-- A template whose memory limit (2 ^ 43 MB) makes `mb * 1024 * 1024` land
exactly on `2 ^ 63` bytes: defined `u64` arithmetic, but the `as i64` cast
reinterprets it as a negative value. -/
def bigMemTemplate : ContainerTemplate :=
  { id := "big-mem"
    name := "huge memory limit"
    description := ""
    dockerfile := "FROM scratch"
    docker_compose := none
    environment_vars := []
    ports := []
    volumes := []
    tools := []
    resource_limits := { memory_mb := some 8796093022208, cpu_shares := none, swap_mb := none } }

/-- Inspect response of a healthy engine for the witness deployments. -/
def wInspectResp : InspectResponse :=
  { name := some "/dev-1"
    config := some { image := some "agent-dev-environment" }
    state := some { status := some "running" }
    created := some "2024-01-01T00:00:00Z"
    network_settings := none }

/-- An engine whose every per-deploy response succeeds: one clean build log
event, create returns id `cid123`, start and inspect succeed; the engine
knows one running container `dev-1`. -/
def wEngine : Engine :=
  { buildStream := [BuildEvent.info { stream := some "Step 1/4 : FROM ubuntu:22.04", error := none }]
    create := fun _ _ => .ok "cid123"
    start := fun _ => .ok ()
    inspect := fun _ => .ok wInspectResp
    containers := [("dev-1", true)] }

/-- An engine whose build stream emits one log line and then an error
terminator. -/
def failBuildEngine : Engine :=
  { buildStream :=
      [BuildEvent.info { stream := some "Step 1/4 : FROM ubuntu:22.04", error := none },
       BuildEvent.info { stream := none, error := some "boom" }]
    create := fun _ _ => .ok "cid123"
    start := fun _ => .ok ()
    inspect := fun _ => .ok wInspectResp
    containers := [] }

/-- Orchestrator state holding the dev template and an empty registry. -/
def wState : OrchState :=
  { templates := [("dev-environment", devTemplate)], deployments := [] }

/-- Orchestrator state after a successful deploy of `dev-1`. -/
def wDeployedState : OrchState :=
  { templates := [("dev-environment", devTemplate)]
    deployments := [("dev-1", buildContainerInfo "cid123" wInspectResp)] }

/-! ## Lemmas about the association-list map -/

lemma lookupA_nil {α : Type} (k : String) : lookupA ([] : AList α) k = none := rfl

lemma lookupA_cons {α : Type} (kv : String × α) (m : AList α) (k : String) :
    lookupA (kv :: m) k = if kv.1 = k then some kv.2 else lookupA m k := by
  by_cases h : kv.1 = k
  · have hb : (kv.1 == k) = true := beq_iff_eq.mpr h
    simp [lookupA, List.find?, hb, h]
  · have hb : (kv.1 == k) = false := by simp [h]
    simp [lookupA, List.find?, hb, h]

lemma eraseA_cons {α : Type} (kv : String × α) (m : AList α) (k : String) :
    eraseA (kv :: m) k = if kv.1 = k then eraseA m k else kv :: eraseA m k := by
  by_cases h : kv.1 = k
  · have hb : (kv.1 != k) = false := by simp [h]
    simp [eraseA, List.filter, hb, h]
  · have hb : (kv.1 != k) = true := by simp [h]
    simp [eraseA, List.filter, hb, h]

lemma lookupA_eraseA {α : Type} (m : AList α) (k k' : String) (h : k' ≠ k) :
    lookupA (eraseA m k) k' = lookupA m k' := by
  induction m with
  | nil => rfl
  | cons kv rest ih =>
    rw [eraseA_cons, lookupA_cons]
    by_cases hk : kv.1 = k
    · have hne : kv.1 ≠ k' := by rw [hk]; exact fun he => h he.symm
      simp [hk, hne, ih, Ne.symm h]
    · simp only [hk, if_false]
      rw [lookupA_cons]
      by_cases hk2 : kv.1 = k'
      · simp [hk2]
      · simp [hk2, ih]

lemma lookupA_insertA_self {α : Type} (m : AList α) (k : String) (v : α) :
    lookupA (insertA m k v) k = some v := by
  simp [insertA, lookupA_cons]

lemma lookupA_insertA_ne {α : Type} (m : AList α) (k k' : String) (v : α) (h : k' ≠ k) :
    lookupA (insertA m k v) k' = lookupA m k' := by
  rw [insertA, lookupA_cons]
  simp only [h.symm, if_false]
  exact lookupA_eraseA m k k' h

lemma filter_eraseA {α : Type} (m : AList α) (k : String) :
    (eraseA m k).filter (fun kv => kv.1 == k) = [] := by
  induction m with
  | nil => rfl
  | cons kv rest ih =>
    rw [eraseA_cons]
    by_cases hk : kv.1 = k
    · simp [hk, ih]
    · have hb : (kv.1 == k) = false := by simp [hk]
      simp [hk, List.filter, hb, ih]

lemma countKey_insertA {α : Type} (m : AList α) (k : String) (v : α) :
    countKey (insertA m k v) k = 1 := by
  have hb : (((k, v) : String × α).1 == k) = true := by simp
  simp [countKey, insertA, List.filter, hb, filter_eraseA m k]

lemma eraseA_of_lookupA_none {α : Type} (m : AList α) (k : String)
    (h : lookupA m k = none) : eraseA m k = m := by
  induction m with
  | nil => rfl
  | cons kv rest ih =>
    rw [lookupA_cons] at h
    by_cases hk : kv.1 = k
    · simp [hk] at h
    · simp only [hk, if_false] at h
      rw [eraseA_cons]
      simp [hk, ih h]

/-! ## Lemmas about the build stream -/

lemma processBuildStream_eq (evs : List BuildEvent) (acc : List String) :
    processBuildStream evs acc =
      match firstTerminator evs with
      | some err => .error err
      | none => .ok (acc ++ collectedLogsSpec evs) := by
  induction evs generalizing acc with
  | nil => simp [processBuildStream, firstTerminator, collectedLogsSpec]
  | cons ev rest ih =>
    cases ev with
    | info i =>
      cases he : i.error with
      | some e =>
        cases hs : i.stream <;>
          simp [processBuildStream, firstTerminator, collectedLogsSpec, he, hs]
      | none =>
        cases hs : i.stream with
        | none =>
          simp only [processBuildStream, firstTerminator, collectedLogsSpec, he, hs]
          rw [ih acc]
          cases firstTerminator rest <;> simp
        | some s =>
          simp only [processBuildStream, firstTerminator, collectedLogsSpec, he, hs]
          rw [ih (acc ++ [trimS s])]
          cases firstTerminator rest <;> simp
    | streamErr e =>
      simp [processBuildStream, firstTerminator]

/-! ## Lemmas about the port-binding fold -/

lemma lookupA_portBindings_fold_not_mem (ports : List PortMapping)
    (acc : AList (Option (List PortBindingM))) (k : String)
    (h : k ∉ ports.map portKey) :
    lookupA (ports.foldl (fun m p => insertA m (portKey p) (some [portBindingOf p])) acc) k =
      lookupA acc k := by
  induction ports generalizing acc with
  | nil => rfl
  | cons q rest ih =>
    simp only [List.map, List.mem_cons, not_or] at h
    simp only [List.foldl]
    rw [ih _ h.2, lookupA_insertA_ne _ _ _ _ h.1]

lemma lookupA_portBindings_fold_mem (ports : List PortMapping)
    (acc : AList (Option (List PortBindingM))) (p : PortMapping)
    (hp : p ∈ ports) (hnd : (ports.map portKey).Nodup) :
    lookupA (ports.foldl (fun m p => insertA m (portKey p) (some [portBindingOf p])) acc)
      (portKey p) = some (some [portBindingOf p]) := by
  induction ports generalizing acc with
  | nil => exact absurd hp (List.not_mem_nil p)
  | cons q rest ih =>
    simp only [List.map, List.nodup_cons] at hnd
    rcases List.mem_cons.mp hp with hq | hrest
    · subst hq
      simp only [List.foldl]
      rw [lookupA_portBindings_fold_not_mem rest _ _ hnd.1, lookupA_insertA_self]
    · simp only [List.foldl]
      exact ih _ hrest hnd.2

/-! ## Arithmetic lemmas for the resource-limit translation -/

lemma i64OfU64_small (n : Nat) (h : n < 2 ^ 63) : i64OfU64 n = (n : Int) := by
  rw [i64OfU64, if_pos h]

lemma i64OfU64_mbToBytes (mb : Nat) (h : mb * 1024 * 1024 < 2 ^ 63) :
    i64OfU64 (mbToBytesU64 mb) = ((mb * 1024 * 1024 : Nat) : Int) := by
  have h1 : mb * 1024 ≤ mb * 1024 * 1024 :=
    Nat.le_mul_of_pos_right _ (by norm_num)
  have h2 : mb * 1024 < 2 ^ 64 :=
    lt_of_le_of_lt h1 (lt_trans h (by norm_num))
  have h3 : mb * 1024 * 1024 < 2 ^ 64 := lt_trans h (by norm_num)
  rw [mbToBytesU64, U64, Nat.mod_eq_of_lt h2, Nat.mod_eq_of_lt h3]
  exact i64OfU64_small _ h

/-- Factoring out the `:ro` suffix of a bind-mount spec. -/
lemma volumeBindSpec_eq (v : VolumeMapping) :
    volumeBindSpec v =
      (v.host_path ++ ":" ++ v.container_path) ++ (if v.read_only then ":ro" else "") := by
  by_cases h : v.read_only
  · simp [volumeBindSpec, h]
  · simp [volumeBindSpec, h]

/-! ## Case analysis of deploy_template -/

/-- Every run of `deploy_template` either fails and leaves the whole state
unchanged, or every pipeline stage (template lookup, build, create, start,
inspect) succeeded and the outcome is the full success record, with the
inspected `ContainerInfo` inserted into the registry. -/
lemma deployTemplate_cases (eng : Engine) (st : OrchState) (tid : String)
    (nameOpt : Option String) (rand elapsedMs : Nat) :
    (∃ e, (deployTemplate eng st tid nameOpt rand elapsedMs).result = .error e ∧
      (deployTemplate eng st tid nameOpt rand elapsedMs).state = st) ∨
    (∃ t containerId resp logs,
      lookupA st.templates tid = some t ∧
      processBuildStream eng.buildStream [] = .ok logs ∧
      eng.create (containerConfig t ("agent-" ++ tid))
        (nameOpt.getD (synthesizeName tid rand)) = .ok containerId ∧
      eng.start containerId = .ok () ∧
      eng.inspect containerId = .ok resp ∧
      deployTemplate eng st tid nameOpt rand elapsedMs =
        { result := .ok
            { success := true
              container_id := some containerId
              container_name := nameOpt.getD (synthesizeName tid rand)
              image_id := some ("agent-" ++ tid)
              ports := (buildContainerInfo containerId resp).ports
              message := "Container deployed successfully"
              build_logs := logs
              deployment_time_ms := elapsedMs }
          state := { st with deployments :=
            (insertA st.deployments (nameOpt.getD (synthesizeName tid rand))
              (buildContainerInfo containerId resp)) }
          calls := [.build, .create, .start, .inspect] }) := by
  cases hl : lookupA st.templates tid with
  | none =>
    exact Or.inl ⟨.templateNotFound tid, by simp [deployTemplate, hl],
      by simp [deployTemplate, hl]⟩
  | some t =>
    cases hb : processBuildStream eng.buildStream [] with
    | error e =>
      exact Or.inl ⟨e, by simp [deployTemplate, buildImage, hl, hb],
        by simp [deployTemplate, buildImage, hl, hb]⟩
    | ok logs =>
      cases hc : eng.create (containerConfig t ("agent-" ++ tid))
          (nameOpt.getD (synthesizeName tid rand)) with
      | error e =>
        exact Or.inl ⟨.engine e,
          by simp [deployTemplate, buildImage, createContainer, hl, hb, hc],
          by simp [deployTemplate, buildImage, createContainer, hl, hb, hc]⟩
      | ok containerId =>
        cases hsrt : eng.start containerId with
        | error e =>
          exact Or.inl ⟨.engine e,
            by simp [deployTemplate, buildImage, createContainer, hl, hb, hc, hsrt],
            by simp [deployTemplate, buildImage, createContainer, hl, hb, hc, hsrt]⟩
        | ok u =>
          cases hins : eng.inspect containerId with
          | error e =>
            exact Or.inl ⟨.engine e,
              by simp [deployTemplate, buildImage, createContainer, getContainerInfo,
                Except.map, hl, hb, hc, hsrt, hins],
              by simp [deployTemplate, buildImage, createContainer, getContainerInfo,
                Except.map, hl, hb, hc, hsrt, hins]⟩
          | ok resp =>
            refine Or.inr ⟨t, containerId, resp, logs, rfl, rfl, hc, ?_, hins, ?_⟩
            · cases u; exact hsrt
            · simp only [deployTemplate, buildImage, createContainer, getContainerInfo,
                Except.map, hl, hb, hc, hsrt, hins]

/-- Every character the hex formatter emits is a lowercase hex digit. -/
lemma isLowerHexDigit_hexDigit (n : Nat) : isLowerHexDigit (hexDigit n) = true := by
  have h16 : n % 16 < 16 := Nat.mod_lt _ (by norm_num)
  have haux : ∀ i : Fin 16, isLowerHexDigit (hexChars.getD i.val '0') = true := by decide
  simpa [hexDigit] using haux ⟨n % 16, h16⟩

/-! ## Claim theorems -/

/-- C2: deploying a template id that is not in the catalog returns the
`TemplateNotFound` error, performs no engine call (empty call trace), and
leaves the whole orchestrator state — in particular the deployment registry —
unchanged. -/
theorem deploy_unknown_template (eng : Engine) (st : OrchState) (tid : String)
    (nameOpt : Option String) (rand elapsedMs : Nat)
    (h : lookupA st.templates tid = none) :
    deployTemplate eng st tid nameOpt rand elapsedMs =
      { result := .error (.templateNotFound tid), state := st, calls := [] } := by
  simp [deployTemplate, h]

/-- Witness for C2: deploying `unknown-id` against the catalog that holds only
`dev-environment` yields `TemplateNotFound`, an unchanged state, and an empty
engine-call trace. -/
theorem deploy_unknown_template_witness :
    deployTemplate wEngine wState "unknown-id" (some "x") 0 0 =
      { result := .error (.templateNotFound "unknown-id"), state := wState, calls := [] } :=
  deploy_unknown_template wEngine wState "unknown-id" (some "x") 0 0 rfl

/-- C4 (counterexample): the claim says the build error carries the log lines
collected up to the error terminator.  Two streams that collect different
logs ( `["step one"]` versus `[]` ) produce the *identical* error value
`buildError "Build error: boom"`, which therefore cannot carry the collected
logs; the collected lines are dropped by the `return Err` in the source. -/
theorem build_error_discards_logs_cx :
    processBuildStream
        [BuildEvent.info { stream := some " step one ", error := none },
         BuildEvent.info { stream := none, error := some "boom" }] [] =
      Except.error (OrchError.buildError "Build error: boom") ∧
    processBuildStream [BuildEvent.info { stream := none, error := some "boom" }] [] =
      Except.error (OrchError.buildError "Build error: boom") ∧
    collectedLogsSpec
        [BuildEvent.info { stream := some " step one ", error := none },
         BuildEvent.info { stream := none, error := some "boom" }] = ["step one"] ∧
    collectedLogsSpec [BuildEvent.info { stream := none, error := some "boom" }] = [] :=
  ⟨rfl, rfl, rfl, rfl⟩

/-- C4 (amended): the build-stream loop aborts at the first error terminator,
returning a `BuildFailure` that carries only the engine's error message (the
collected log lines are discarded); if the stream completes without an error
terminator, the build succeeds with all collected (trimmed) log lines.  The
statement is an equivalence with the spec-side description `buildStreamSpec`,
and ties `build_image`'s result to the same description. -/
theorem build_stream_matches_spec (eng : Engine) (t : ContainerTemplate) (tag : String) :
    processBuildStream eng.buildStream [] = buildStreamSpec eng.buildStream ∧
    (buildImage eng t tag).result =
      (buildStreamSpec eng.buildStream).map (fun logs => { logs := logs }) := by
  have h1 : processBuildStream eng.buildStream [] = buildStreamSpec eng.buildStream := by
    rw [processBuildStream_eq, buildStreamSpec]
    cases firstTerminator eng.buildStream <;> simp
  refine ⟨h1, ?_⟩
  cases hp : processBuildStream eng.buildStream [] with
  | ok logs => rw [hp] at h1; simp [buildImage, hp, ← h1, Except.map]
  | error e => rw [hp] at h1; simp [buildImage, hp, ← h1, Except.map]

/-- C5 (counterexample): on a build stream that ends in an error terminator,
`build_image` exits on the early `return Err` path, which skips the
`remove_dir_all` cleanup: the temporary build-context directory is *not*
released on this exit path, contrary to the claim's "on every exit path". -/
theorem build_tempdir_leak_cx :
    (buildImage failBuildEngine devTemplate "agent-dev-environment").tempDirReleased = false ∧
    (buildImage failBuildEngine devTemplate "agent-dev-environment").result =
      Except.error (OrchError.buildError "Build error: boom") :=
  ⟨rfl, rfl⟩

/-- C5 (amended): the temporary build-context directory is released if and
only if the event stream completes without an error terminator or transport
error (the success path); both error exits leave it behind, because the
cleanup call sits after the stream loop and the loop returns early. -/
theorem build_tempdir_release_iff_success (eng : Engine) (t : ContainerTemplate)
    (tag : String) :
    (buildImage eng t tag).tempDirReleased = isOkE (buildImage eng t tag).result ∧
    (buildImage eng t tag).tempDirReleased = isOkE (processBuildStream eng.buildStream []) := by
  cases hp : processBuildStream eng.buildStream [] <;> simp [buildImage, hp, isOkE]

/-- C8: every `VolumeMapping` of the template becomes the bind-mount spec
`"hostPath:containerPath"` in the engine host configuration, with the `":ro"`
suffix appended if and only if `read_only` is true (no suffix when it is
false). -/
theorem volume_binds_translation (t : ContainerTemplate) (image : String) :
    (containerConfig t image).host_config.map (fun hc => hc.binds) =
      some (some (t.volumes.map (fun v =>
        (v.host_path ++ ":" ++ v.container_path) ++
          (if v.read_only then ":ro" else "")))) := by
  have hf : volumeBindSpec = fun v =>
      (v.host_path ++ ":" ++ v.container_path) ++ (if v.read_only then ":ro" else "") :=
    funext volumeBindSpec_eq
  simp [containerConfig, bindsOf, hf]

/-- C10: the `ContainerInfo` assembled by the inspect step has equal `status`
and `state` fields: both are read from the engine's `state.status`, both
defaulting to the empty string when it is absent; and `get_container_info` is
exactly the engine inspect call followed by this assembly. -/
theorem inspect_status_state_agree (eng : Engine) (cid : String) (c : InspectResponse) :
    ((buildContainerInfo cid c).status = (buildContainerInfo cid c).state) ∧
    ((buildContainerInfo cid c).state = (c.state.bind (fun s => s.status)).getD "") ∧
    (getContainerInfo eng cid = (eng.inspect cid).map (buildContainerInfo cid)) :=
  ⟨rfl, rfl, rfl⟩

/-- C3 (counterexample): the claim quantifies over every template, but the
source computes `(mb * 1024 * 1024) as i64`.  For `memory_mb = 2 ^ 43`
(= 8796093022208), the `u64` product is exactly `2 ^ 63` — defined, wrap-free
`u64` arithmetic — yet the `as i64` cast reinterprets it as `-(2 ^ 63)`, so
the engine does not receive the claimed byte value `mb * 1024 * 1024`. -/
theorem resource_limits_overflow_cx :
    (containerConfig bigMemTemplate "agent-big-mem").host_config.map (fun hc => hc.memory) =
      some (some (-(2 ^ 63 : Int))) ∧
    ((8796093022208 * 1024 * 1024 : Nat) : Int) = (2 ^ 63 : Int) ∧
    ¬ (containerConfig bigMemTemplate "agent-big-mem").host_config.map (fun hc => hc.memory) =
        some (some ((8796093022208 * 1024 * 1024 : Nat) : Int)) := by
  refine ⟨?_, by norm_num, ?_⟩
  · simp [containerConfig, bigMemTemplate, mbToBytesU64, U64, i64OfU64]
  · simp [containerConfig, bigMemTemplate, mbToBytesU64, U64, i64OfU64]

/-- C3 (amended): for every template whose present resource-limit values stay
below the signed-64-bit bound (`mb * 1024 * 1024 < 2 ^ 63` for `memory_mb` and
`swap_mb`, `s < 2 ^ 63` for `cpu_shares` — which includes every built-in
template and the claim's example values), the create operation converts
`memory_mb` and `swap_mb` to bytes by multiplying with 1024 × 1024, passes
`cpu_shares` through unchanged, and leaves every absent (`None`) field out of
the engine host configuration entirely (it stays `none`, never `0`).  Above
that bound the `as i64` cast reinterprets the value as negative
(`resource_limits_overflow_cx`). -/
theorem resource_limits_translation (t : ContainerTemplate) (image : String)
    (hm : ∀ mb, t.resource_limits.memory_mb = some mb → mb * 1024 * 1024 < 2 ^ 63)
    (hc : ∀ s, t.resource_limits.cpu_shares = some s → s < 2 ^ 63)
    (hs : ∀ mb, t.resource_limits.swap_mb = some mb → mb * 1024 * 1024 < 2 ^ 63) :
    ∃ hcfg, (containerConfig t image).host_config = some hcfg ∧
      hcfg.memory = t.resource_limits.memory_mb.map (fun mb => ((mb * 1024 * 1024 : Nat) : Int)) ∧
      hcfg.cpu_shares = t.resource_limits.cpu_shares.map (fun s => (s : Int)) ∧
      hcfg.memory_swap = t.resource_limits.swap_mb.map (fun mb => ((mb * 1024 * 1024 : Nat) : Int)) ∧
      (t.resource_limits.memory_mb = none → hcfg.memory = none) ∧
      (t.resource_limits.cpu_shares = none → hcfg.cpu_shares = none) ∧
      (t.resource_limits.swap_mb = none → hcfg.memory_swap = none) := by
  refine ⟨_, rfl, ?_, ?_, ?_, ?_, ?_, ?_⟩
  · cases hmm : t.resource_limits.memory_mb with
    | none => simp
    | some mb => simp [i64OfU64_mbToBytes mb (hm mb hmm)]
  · cases hcc : t.resource_limits.cpu_shares with
    | none => simp
    | some s => simp [i64OfU64_small s (hc s hcc)]
  · cases hss : t.resource_limits.swap_mb with
    | none => simp
    | some mb => simp [i64OfU64_mbToBytes mb (hs mb hss)]
  · intro h; simp [h]
  · intro h; simp [h]
  · intro h; simp [h]

/-- Witness for C3 (amended): the dev-environment limits
`{memory_mb: 2048, cpu_shares: 1024, swap_mb: 1024}` arrive at the engine as
`memory = 2147483648`, `cpu_shares = 1024`, `memory_swap = 1073741824` (the
spec's end-to-end scenario 4). -/
theorem resource_limits_translation_witness :
    ∃ hcfg, (containerConfig devTemplate "agent-dev-environment").host_config = some hcfg ∧
      hcfg.memory = some (2147483648 : Int) ∧
      hcfg.cpu_shares = some (1024 : Int) ∧
      hcfg.memory_swap = some (1073741824 : Int) := by
  obtain ⟨hcfg, h0, h1, h2, h3, _, _, _⟩ :=
    resource_limits_translation devTemplate "agent-dev-environment"
      (fun mb hmb => by
        simp only [devTemplate] at hmb
        injection hmb with hmb
        subst hmb
        norm_num)
      (fun s hsh => by
        simp only [devTemplate] at hsh
        injection hsh with hsh
        subst hsh
        norm_num)
      (fun mb hmb => by
        simp only [devTemplate] at hmb
        injection hmb with hmb
        subst hmb
        norm_num)
  refine ⟨hcfg, h0, ?_, ?_, ?_⟩
  · rw [h1]; rfl
  · rw [h2]; rfl
  · rw [h3]; rfl

/-- C7 (counterexample): the claim quantifies over every `PortMapping`, but
the port-binding table is a `HashMap` keyed by `"containerPort/protocol"`:
when two mappings share the key (here `80/tcp`, host ports 1000 and 2000),
the later insert overwrites the earlier, so the first mapping has no binding
in the engine configuration — the map's only `80/tcp` entry binds host port
2000. -/
theorem port_bindings_duplicate_key_cx :
    ({ host_port := 1000, container_port := 80, protocol := "tcp" } : PortMapping)
        ∈ dupPortTemplate.ports ∧
    lookupA (portBindingsOf dupPortTemplate) "80/tcp" =
      some (some [{ host_ip := some "0.0.0.0", host_port := some "2000" }]) ∧
    countKey (portBindingsOf dupPortTemplate) "80/tcp" = 1 := by
  refine ⟨?_, rfl, rfl⟩
  simp [dupPortTemplate]

/-- C7 (amended): for every template whose port mappings have pairwise
distinct `"containerPort/protocol"` keys (true of all built-in templates),
each `PortMapping` becomes an engine port binding keyed
`"containerPort/protocol"` whose host side is address `0.0.0.0` with the
mapping's host port; when keys collide, the last mapping for a key wins
(`port_bindings_duplicate_key_cx`). -/
theorem port_bindings_translation (t : ContainerTemplate) (image : String) (p : PortMapping)
    (hp : p ∈ t.ports) (hnd : (t.ports.map portKey).Nodup) :
    ∃ hcfg, (containerConfig t image).host_config = some hcfg ∧
      hcfg.port_bindings = some (portBindingsOf t) ∧
      lookupA (portBindingsOf t) (toString p.container_port ++ "/" ++ p.protocol) =
        some (some [{ host_ip := some "0.0.0.0", host_port := some (toString p.host_port) }]) := by
  refine ⟨_, rfl, rfl, ?_⟩
  have h := lookupA_portBindings_fold_mem t.ports [] p hp hnd
  simpa [portBindingsOf, portKey, portBindingOf] using h

/-- Witness for C7 (amended): in the dev-environment template the mapping
`3000 → 3000/tcp` yields the binding `"3000/tcp" ↦ 0.0.0.0:3000`. -/
theorem port_bindings_translation_witness :
    ∃ hcfg, (containerConfig devTemplate "agent-dev-environment").host_config = some hcfg ∧
      hcfg.port_bindings = some (portBindingsOf devTemplate) ∧
      lookupA (portBindingsOf devTemplate) "3000/tcp" =
        some (some [{ host_ip := some "0.0.0.0", host_port := some "3000" }]) := by
  obtain ⟨hcfg, h1, h2, h3⟩ :=
    port_bindings_translation devTemplate "agent-dev-environment"
      { host_port := 3000, container_port := 3000, protocol := "tcp" }
      (by simp [devTemplate]) (by decide)
  exact ⟨hcfg, h1, h2, h3⟩

/-- C6 (counterexample): `remove_container` on a name unknown both to the
registry and to the engine does *not* return success: the engine's
not-found error propagates through the `?` operator (the spec's own error
list, section 7, names `ContainerNotFound` for exactly this case), and the
registry eviction below it is never reached. -/
theorem remove_unknown_container_cx :
    (removeContainer wEngine { templates := [], deployments := [] } "ghost" false).1 =
      Except.error (OrchError.engine "No such container: ghost") ∧
    ¬ ∃ u, (removeContainer wEngine { templates := [], deployments := [] } "ghost" false).1 =
        Except.ok u := by
  refine ⟨rfl, ?_⟩
  rintro ⟨u, hu⟩
  exact Except.noConfusion hu

/-- C6 (amended): `remove_container` on a name the engine does not know
returns the engine's not-found error and leaves the registry untouched; when
the engine removal succeeds (here: a running container removed with
`force = true`), the registry entry is evicted — and that eviction is
idempotent on the registry: evicting a name with no registry entry leaves the
registry unchanged. -/
theorem remove_container_behavior (eng : Engine) (st : OrchState) (ghost target : String)
    (h1 : lookupA eng.containers ghost = none)
    (h2 : lookupA eng.containers target = some true)
    (h3 : lookupA st.deployments ghost = none) :
    removeContainer eng st ghost false =
      (.error (.engine ("No such container: " ++ ghost)), st) ∧
    removeContainer eng st target true =
      (.ok (), { st with deployments := eraseA st.deployments target }) ∧
    eraseA st.deployments ghost = st.deployments := by
  refine ⟨?_, ?_, eraseA_of_lookupA_none st.deployments ghost h3⟩
  · simp [removeContainer, engineRemoveContainer, h1]
  · simp [removeContainer, engineRemoveContainer, h2]

/-- Witness for C6 (amended): against the engine that knows the running
container `dev-1`, removing the unknown `ghost` errors with the engine's
not-found message and leaves the state unchanged, while force-removing
`dev-1` succeeds and evicts its registry entry. -/
theorem remove_container_behavior_witness :
    removeContainer wEngine wDeployedState "ghost" false =
      (Except.error (OrchError.engine "No such container: ghost"), wDeployedState) ∧
    removeContainer wEngine wDeployedState "dev-1" true =
      (Except.ok (), { wDeployedState with deployments := [] }) := by
  obtain ⟨ha, hb, _⟩ :=
    remove_container_behavior wEngine wDeployedState "ghost" "dev-1" rfl rfl rfl
  exact ⟨ha, hb⟩

/-- C1: the deployment registry is written only after create, start, and
inspect all succeeded.  Every failing run of `deploy_template` (in particular
every run whose build stream terminates in an error) leaves the registry
unchanged; every successful run inserted exactly the inspected
`ContainerInfo` under the returned deployment name, so the registry holds
exactly one entry for that name, whose container id is the engine's created
id — non-empty under the engine contract that `create` returns non-empty
ids. -/
theorem deploy_registry_lifecycle (eng : Engine) (st : OrchState) (tid : String)
    (nameOpt : Option String) (rand elapsedMs : Nat)
    (hid : ∀ cfg nm cid, eng.create cfg nm = .ok cid → cid ≠ "") :
    (∀ e, (deployTemplate eng st tid nameOpt rand elapsedMs).result = .error e →
      (deployTemplate eng st tid nameOpt rand elapsedMs).state.deployments =
        st.deployments) ∧
    (∀ e, processBuildStream eng.buildStream [] = .error e →
      (deployTemplate eng st tid nameOpt rand elapsedMs).state.deployments =
        st.deployments) ∧
    (∀ r, (deployTemplate eng st tid nameOpt rand elapsedMs).result = .ok r →
      r.success = true ∧
      ∃ t containerId resp,
        lookupA st.templates tid = some t ∧
        eng.create (containerConfig t ("agent-" ++ tid)) r.container_name = .ok containerId ∧
        eng.start containerId = .ok () ∧
        eng.inspect containerId = .ok resp ∧
        r.container_id = some containerId ∧
        (deployTemplate eng st tid nameOpt rand elapsedMs).state.deployments =
          insertA st.deployments r.container_name (buildContainerInfo containerId resp) ∧
        countKey (deployTemplate eng st tid nameOpt rand elapsedMs).state.deployments
          r.container_name = 1 ∧
        lookupA (deployTemplate eng st tid nameOpt rand elapsedMs).state.deployments
          r.container_name = some (buildContainerInfo containerId resp) ∧
        (buildContainerInfo containerId resp).id = containerId ∧
        containerId ≠ "" ∧
        (deployTemplate eng st tid nameOpt rand elapsedMs).calls =
          [.build, .create, .start, .inspect]) := by
  rcases deployTemplate_cases eng st tid nameOpt rand elapsedMs with
    ⟨e, he, hst⟩ | ⟨t, containerId, resp, logs, hl, hb, hc, hsrt, hins, hout⟩
  · refine ⟨fun e' _ => by rw [hst], fun e' _ => by rw [hst], fun r hr => ?_⟩
    rw [he] at hr
    exact Except.noConfusion hr
  · refine ⟨fun e' he' => ?_, fun e' hb' => ?_, fun r hr => ?_⟩
    · rw [hout] at he'
      exact Except.noConfusion he'
    · rw [hb] at hb'
      exact Except.noConfusion hb'
    · rw [hout] at hr
      injection hr with hr
      subst hr
      refine ⟨rfl, t, containerId, resp, hl, hc, hsrt, hins, rfl, ?_, ?_, ?_, rfl,
        hid _ _ _ hc, ?_⟩
      · rw [hout]
      · rw [hout]
        exact countKey_insertA _ _ _
      · rw [hout]
        exact lookupA_insertA_self _ _ _
      · rw [hout]

/-- Witness for C1: a full successful deploy of `dev-environment` as `dev-1`
against the healthy engine leaves exactly one registry entry for `dev-1`,
holding the inspected container info with id `cid123`. -/
theorem deploy_registry_lifecycle_witness :
    countKey (deployTemplate wEngine wState "dev-environment" (some "dev-1") 0 5).state.deployments
        "dev-1" = 1 ∧
    lookupA (deployTemplate wEngine wState "dev-environment" (some "dev-1") 0 5).state.deployments
        "dev-1" = some (buildContainerInfo "cid123" wInspectResp) := by
  have h := deploy_registry_lifecycle wEngine wState "dev-environment" (some "dev-1") 0 5
    (fun cfg nm cid hcc => by
      have hcc' : Except.ok (ε := String) "cid123" = Except.ok cid := hcc
      injection hcc' with h2
      subst h2
      decide)
  obtain ⟨hsucc, t, containerId, resp, hl, hcr, hstt, hin, hcid, hstate, hcount, hlook,
    hid2, hne, hcalls⟩ := h.2.2 _ rfl
  have e1 : containerId = "cid123" := by
    have h2 : Except.ok (ε := String) "cid123" = Except.ok containerId := hcr
    injection h2 with h2
    exact h2.symm
  subst e1
  have e2 : resp = wInspectResp := by
    have h3 : Except.ok (ε := String) wInspectResp = Except.ok resp := hin
    injection h3 with h3
    exact h3.symm
  subst e2
  exact ⟨hcount, hlook⟩

/-- C9: when `deploy_template` is called without a name, the deployment name
it uses (and returns on success) is the template id, a hyphen, and the first
8 characters of a fresh v4 UUID rendering — 8 lowercase hexadecimal
characters; so for template id `dev-environment` the name matches
`dev-environment-[0-9a-f]\x7b8\x7d`. -/
theorem synthesized_name_format (eng : Engine) (st : OrchState) (tid : String)
    (rand elapsedMs : Nat) :
    (∀ r, (deployTemplate eng st tid none rand elapsedMs).result = .ok r →
      r.container_name = tid ++ "-" ++ uuidFirst8 rand) ∧
    (uuidFirst8 rand).length = 8 ∧
    (∀ c ∈ (uuidFirst8 rand).data, isLowerHexDigit c = true) := by
  refine ⟨?_, ?_, ?_⟩
  · intro r hr
    rcases deployTemplate_cases eng st tid none rand elapsedMs with
      ⟨e, he, _⟩ | ⟨t, containerId, resp, logs, _, _, _, _, _, hout⟩
    · rw [he] at hr
      exact Except.noConfusion hr
    · rw [hout] at hr
      injection hr with hr
      subst hr
      rfl
  · rfl
  · intro c hc
    have hd : (uuidFirst8 rand).data =
        [hexDigit (uuidByte rand 0 / 16), hexDigit (uuidByte rand 0),
         hexDigit (uuidByte rand 1 / 16), hexDigit (uuidByte rand 1),
         hexDigit (uuidByte rand 2 / 16), hexDigit (uuidByte rand 2),
         hexDigit (uuidByte rand 3 / 16), hexDigit (uuidByte rand 3)] := rfl
    rw [hd] at hc
    simp only [List.mem_cons, List.not_mem_nil, or_false] at hc
    rcases hc with h | h | h | h | h | h | h | h <;>
      (subst h; exact isLowerHexDigit_hexDigit _)

/-- Witness for C9: an unnamed deploy of `dev-environment` with random seed
12345 (bytes 0x39, 0x30, 0x00, 0x00) succeeds and is named
`dev-environment-39300000`: the id, a hyphen, 8 lowercase hex characters. -/
theorem synthesized_name_format_witness :
    ∃ r, (deployTemplate wEngine wState "dev-environment" none 12345 7).result =
        Except.ok r ∧
      r.container_name = "dev-environment-39300000" := by
  obtain ⟨h1, h2, h3⟩ := synthesized_name_format wEngine wState "dev-environment" 12345 7
  refine ⟨_, rfl, ?_⟩
  rw [h1 _ rfl]
  rfl

end Orchestrator
